import Mathlib

/-!
Verification development for the HappyOS SDK execution and routing kernel.

The definitions below are a shallow embedding of the TypeScript sources:

* `src/core/FallbackManager.ts` — `CircuitBreaker`, `FallbackManager`
* `src/core/Agent.ts` — abstract `Agent` base class
* `src/orchestration/AgentOrchestrator.ts` — `AgentOrchestrator`
* `src/communication/A2ACommunicationBus.ts` — `A2ACommunicationBus`

Conventions of the embedding:

* JavaScript numbers are modelled as `Nat` (times, delays, counters);
  time subtraction that can go negative in JS is computed in `Int`.
* JavaScript `Map` objects are modelled as association lists with
  `mapLookup` / `mapSet` / `mapDelete`; `Set` objects as lists with
  `setAdd` / `setRemove`.
* A thrown JS exception is modelled as the `Except.error` channel of the
  corresponding function; a returned value as `Except.ok`.
* `Date.now()` is passed in explicitly as a `now : Nat` argument, and the
  per-execution time/memory readings as an `ExecEnv` record.
* The abstract `Agent.run` user body is modelled as a function of the
  number of previous invocations (`AgentInst.invocations`), which lets a
  single agent instance behave differently on successive calls the way a
  stateful JS object can.
* Falsy-default expressions `x || d` on numbers are modelled by `jsOr`
  (`0` and `undefined` both fall back to the default, as in JS).
-/

namespace HappyOS

/-- JS `x || d` for an optional number: `undefined` and `0` are falsy. -/
def jsOr (v : Option Nat) (d : Nat) : Nat :=
  match v with
  | some n => if n = 0 then d else n
  | none => d

/-- Model of `Map.get`: first binding for the key, if any. -/
def mapLookup {β : Type} (l : List (String × β)) (k : String) : Option β :=
  match l with
  | [] => none
  | (k1, v) :: rest => if k1 = k then some v else mapLookup rest k

/-- Model of `Map.set`: replace the binding if present, else append. -/
def mapSet {β : Type} (l : List (String × β)) (k : String) (v : β) : List (String × β) :=
  match l with
  | [] => [(k, v)]
  | (k1, v1) :: rest => if k1 = k then (k, v) :: rest else (k1, v1) :: mapSet rest k v

/-- Model of `Map.delete`: drop every binding for the key. -/
def mapDelete {β : Type} (l : List (String × β)) (k : String) : List (String × β) :=
  l.filter (fun p => p.1 ≠ k)

/-- Model of `Set.add`. -/
def setAdd (l : List String) (k : String) : List String :=
  if k ∈ l then l else l ++ [k]

/-- Model of `Set.delete`. -/
def setRemove (l : List String) (k : String) : List String :=
  l.filter (fun x => x ≠ k)

/-! ### Circuit breaker (`src/core/FallbackManager.ts`, lines 7–81) -/

/-- `CircuitState` enum. -/
inductive CircuitState
  | CLOSED
  | OPEN
  | HALF_OPEN
deriving DecidableEq

/-- `CircuitBreaker` instance fields, with the constructor defaults
`threshold = 5`, `timeout = 60000`, `halfOpenAttempts = 3`. -/
structure CircuitBreaker where
  state : CircuitState := .CLOSED
  failureCount : Nat := 0
  successCount : Nat := 0
  lastFailureTime : Option Nat := none
  threshold : Nat := 5
  timeout : Nat := 60000
  halfOpenAttempts : Nat := 3
deriving DecidableEq

/-- `onSuccess` (lines 51–60). -/
def CircuitBreaker.onSuccess (cb : CircuitBreaker) : CircuitBreaker :=
  let cb1 := { cb with failureCount := 0 }
  if cb1.state = .HALF_OPEN then
    let cb2 := { cb1 with successCount := cb1.successCount + 1 }
    if cb2.halfOpenAttempts ≤ cb2.successCount then { cb2 with state := .CLOSED } else cb2
  else cb1

/-- `onFailure` (lines 62–69); `now` is `Date.now()` at the failure. -/
def CircuitBreaker.onFailure (cb : CircuitBreaker) (now : Nat) : CircuitBreaker :=
  let cb1 := { cb with failureCount := cb.failureCount + 1, lastFailureTime := some now }
  if cb1.threshold ≤ cb1.failureCount then { cb1 with state := .OPEN } else cb1

/-- `shouldAttemptReset` (lines 71–76): `!!(lastFailureTime && now - lastFailureTime >= timeout)`.
A `lastFailureTime` of `0` is falsy in JS; the subtraction is done in `Int`. -/
def CircuitBreaker.shouldAttemptReset (cb : CircuitBreaker) (now : Nat) : Bool :=
  match cb.lastFailureTime with
  | none => false
  | some t => decide (t ≠ 0) && decide ((cb.timeout : Int) ≤ (now : Int) - (t : Int))

/-- The admission step of `execute` (lines 32–39): `some cb1` means the gated
call proceeds with breaker state `cb1`; `none` means the gate throws
`Error('Circuit breaker is OPEN')`. -/
def CircuitBreaker.admit (cb : CircuitBreaker) (now : Nat) : Option CircuitBreaker :=
  if cb.state = .OPEN then
    if cb.shouldAttemptReset now then
      some { cb with state := .HALF_OPEN, successCount := 0 }
    else none
  else some cb

/-- Error channel of the gate: either the gate refused the call
(`circuitOpen`, the thrown `Error('Circuit breaker is OPEN')`) or the gated
function itself threw (`wrapped`). -/
inductive GateError (E : Type)
  | circuitOpen
  | wrapped (e : E)
deriving DecidableEq

/-- `execute` (lines 31–49) for one gated call whose body outcome is `fn`:
admission check, then `onSuccess` / `onFailure` bookkeeping, re-raising the
body failure. -/
def CircuitBreaker.execute {E T : Type} (cb : CircuitBreaker) (now : Nat) (fn : Except E T) :
    CircuitBreaker × Except (GateError E) T :=
  match cb.admit now with
  | none => (cb, .error .circuitOpen)
  | some cb1 =>
    match fn with
    | .ok v => (cb1.onSuccess, .ok v)
    | .error e => (cb1.onFailure now, .error (.wrapped e))

/-- Breaker state after a sequence of gated calls whose bodies all fail,
made at the given times (used to express "threshold consecutive failures"). -/
def gateFailStreak {E : Type} (e : E) : CircuitBreaker → List Nat → CircuitBreaker
  | cb, [] => cb
  | cb, t :: ts => gateFailStreak e (cb.execute (T := Unit) t (Except.error e)).1 ts

/-- Concrete circuit-breaker trace for claim C1: five gated failures at times
1..5 open the default breaker, a probe succeeds at time 60005 (entering
HALF_OPEN and resetting `failureCount`), leaving `cbHalfOpenAfterSuccess`. -/
def cbHalfOpenAfterSuccess : CircuitBreaker :=
  let cb5 := gateFailStreak (E := String) "boom" {} [1, 2, 3, 4, 5]
  (cb5.execute (E := String) 60005 (Except.ok ())).1

/-! ### Shared types (`src/types/index.ts`) -/

/-- `AgentStatus` enum. -/
inductive AgentStatus
  | IDLE
  | RUNNING
  | COMPLETED
  | FAILED
  | SUSPENDED
deriving DecidableEq

/-- `MessagePriority` enum. -/
inductive MessagePriority
  | LOW
  | NORMAL
  | HIGH
  | CRITICAL
deriving DecidableEq

/-- `AgentError` (`details` is an opaque `unknown`; it is omitted as no code
in the kernel ever sets or reads it). -/
structure AgentError where
  code : String
  message : String
  stack : Option String := none
deriving DecidableEq

/-- `AgentMetrics`. -/
structure AgentMetrics where
  executionTime : Nat
  memoryUsed : Option Nat := none
  messagesProcessed : Option Nat := none
  retryCount : Option Nat := none
deriving DecidableEq

/-- `AgentResult<T>`; the payload type is a parameter. -/
structure AgentResult (T : Type) where
  success : Bool
  data : Option T := none
  error : Option AgentError := none
  metrics : Option AgentMetrics := none
deriving DecidableEq

/-- `Record<string, unknown>` metadata, modelled as a key/value list. -/
abbrev MetadataRec := List (String × String)

/-- `AgentContext`. -/
structure AgentContext where
  agentId : String
  requestId : String
  correlationId : Option String := none
  timestamp : Nat
  metadata : Option MetadataRec := none
deriving DecidableEq

/-- `Partial<AgentContext>`: every field optional; a `some` field is a
property present on the caller-supplied object literal. -/
structure PartialAgentContext where
  agentId : Option String := none
  requestId : Option String := none
  correlationId : Option String := none
  timestamp : Option Nat := none
  metadata : Option MetadataRec := none
deriving DecidableEq

/-- `RetryPolicy`. -/
structure RetryPolicy where
  maxAttempts : Nat
  backoffMultiplier : Option Nat := none
  initialDelay : Option Nat := none
  maxDelay : Option Nat := none
deriving DecidableEq

/-- `AgentConfig` (`memory` hint modelled by its two optional numbers). -/
structure AgentConfig where
  id : String
  name : String := ""
  type : String := ""
  memoryMaxSize : Option Nat := none
  memoryTtl : Option Nat := none
  timeout : Option Nat := none
  retryPolicy : Option RetryPolicy := none
  fallbackAgent : Option String := none
  metadata : Option MetadataRec := none
deriving DecidableEq

/-- `FallbackConfig`. -/
structure FallbackConfig where
  enabled : Bool
  fallbackAgentId : Option String := none
  maxFallbackAttempts : Option Nat := none
  fallbackStrategy : Option String := none
deriving DecidableEq

/-! ### Agent base class (`src/core/Agent.ts`) -/

/-- A value thrown by JS user code: either an `Error` instance (with
`message` and `stack`) or some other value (kept as its `String(...)` form). -/
inductive JsValueErr
  | jsError (message : String) (stack : Option String := none)
  | nonError (str : String)
deriving DecidableEq

/-- `formatError` (lines 363–376). -/
def formatError : JsValueErr → AgentError
  | .jsError m st => { code := "AGENT_ERROR", message := m, stack := st }
  | .nonError s => { code := "UNKNOWN_ERROR", message := s }

/-- Time and memory readings for one `execute` call: `startTime` is the
`Date.now()` stored on entry, `now` the reading in `collectMetrics`,
`heapUsed` the `getMemoryUsage()` reading. -/
structure ExecEnv where
  startTime : Nat := 0
  now : Nat := 0
  heapUsed : Nat := 0
deriving DecidableEq

/-- `collectMetrics` (lines 340–348). -/
def collectMetrics (env : ExecEnv) : AgentMetrics :=
  { executionTime := env.now - env.startTime
    memoryUsed := some env.heapUsed
    retryCount := some 0 }

/-- Runtime state of one concrete `Agent` instance.  The abstract `run`
body is a function of the number of completed `execute` calls
(`invocations`), which models a stateful JS object whose behaviour can
differ between calls (e.g. "fail twice, then succeed"). -/
structure AgentInst (I T : Type) where
  config : AgentConfig
  status : AgentStatus := .IDLE
  context : Option AgentContext := none
  invocations : Nat := 0
  run : Nat → I → Except JsValueErr T

/-- The entry effects of `execute` (lines 301–303): store the context and
set the status to `RUNNING`. -/
def AgentInst.executeEntry {I T : Type} (a : AgentInst I T) (ctx : AgentContext) : AgentInst I T :=
  { a with context := some ctx, status := .RUNNING }

/-- Result of one `execute` call: the post-call agent instance, the returned
`AgentResult`, and whether the `finally { this.cleanup() }` block ran. -/
structure ExecStep (I T : Type) where
  agent : AgentInst I T
  result : AgentResult T
  cleanupCalled : Bool

/-- `Agent.execute` (lines 300–325): set `RUNNING` (the transient entry
state is `executeEntry`; the branches below override its status with the
final one), invoke `run`, map a return to a success Result with status
`COMPLETED`, map a raised failure to a failure Result with status `FAILED`,
run `cleanup()` on either path. -/
def AgentInst.execute {I T : Type} (a : AgentInst I T) (ctx : AgentContext) (input : I)
    (env : ExecEnv) : ExecStep I T :=
  match a.run a.invocations input with
  | .ok v =>
    { agent := { a with context := some ctx, status := .COMPLETED, invocations := a.invocations + 1 }
      result := { success := true, data := some v, metrics := some (collectMetrics env) }
      cleanupCalled := true }
  | .error e =>
    { agent := { a with context := some ctx, status := .FAILED, invocations := a.invocations + 1 }
      result := { success := false, error := some (formatError e), metrics := some (collectMetrics env) }
      cleanupCalled := true }

/-- `Agent.suspend` (lines 388–390). -/
def AgentInst.suspend {I T : Type} (a : AgentInst I T) : AgentInst I T :=
  { a with status := .SUSPENDED }

/-- `Agent.resume` (lines 395–399). -/
def AgentInst.resume {I T : Type} (a : AgentInst I T) : AgentInst I T :=
  if a.status = .SUSPENDED then { a with status := .IDLE } else a

/-! ### Retry loop (`FallbackManager.executeWithRetry`, lines 155–199) -/

/-- `result.error?.message || 'Execution failed'` (line 186); an empty
message string is falsy in JS. -/
def resultErrMsg {T : Type} (r : AgentResult T) : String :=
  match r.error with
  | some err => if err.message = "" then "Execution failed" else err.message
  | none => "Execution failed"

/-- Message of the `Error` the retry loop remembers for a `run` body outcome
that makes the attempt fail. -/
def runFailMsg {T : Type} : Except JsValueErr T → String
  | .error e =>
    if (formatError e).message = "" then "Execution failed" else (formatError e).message
  | .ok _ => "Execution failed"

/-- The `{...result, metrics: ...}` success rewrite of the retry loop
(lines 174–183): stamp `retryCount = attempt` into the metrics. -/
def withRetryCount {T : Type} (r : AgentResult T) (attempt : Nat) : AgentResult T :=
  { r with metrics := some (match r.metrics with
      | some m => { m with retryCount := some attempt }
      | none => { executionTime := 0, retryCount := some attempt }) }

/-- Observable trace of one `executeWithRetry` call: how many times
`agent.execute` was invoked, the `sleep` durations in order, and either the
returned Result or the message of the `Error` finally thrown. -/
structure RetryTrace (T : Type) where
  calls : Nat
  waits : List Nat
  outcome : Except String (AgentResult T)

/-- The `for (attempt …)` loop of `executeWithRetry` (lines 169–198),
threading the agent instance through the attempts.  `fuel` is the number of
attempts still allowed (`maxAttempts - attempt`); `fuel = 0` is the loop
exit where the last remembered failure is thrown. -/
def retryAgentLoop {I T : Type} (ctx : AgentContext) (input : I) (env : ExecEnv)
    (multiplier maxDelay : Nat) :
    Nat → Nat → Nat → AgentInst I T → Option String → AgentInst I T × RetryTrace T
  | 0, _, _, a, lastError =>
    (a, ⟨0, [], .error (lastError.getD "Execution failed after retries")⟩)
  | fuel + 1, attempt, delay, a, _ =>
    let step := a.execute ctx input env
    if step.result.success then
      (step.agent, ⟨1, [], .ok (withRetryCount step.result attempt)⟩)
    else
      let le := some (resultErrMsg step.result)
      if fuel = 0 then
        let t := retryAgentLoop ctx input env multiplier maxDelay fuel (attempt + 1) delay step.agent le
        (t.1, ⟨t.2.calls + 1, t.2.waits, t.2.outcome⟩)
      else
        let t := retryAgentLoop ctx input env multiplier maxDelay fuel (attempt + 1)
          (delay * multiplier) step.agent le
        (t.1, ⟨t.2.calls + 1, min delay maxDelay :: t.2.waits, t.2.outcome⟩)

/-- `executeWithRetry` (lines 155–199): defaults `maxAttempts || 1`,
`initialDelay || 1000`, `backoffMultiplier || 2`, `maxDelay || 30000`. -/
def FallbackManager.executeWithRetry {I T : Type} (a : AgentInst I T) (ctx : AgentContext)
    (input : I) (env : ExecEnv) (retryPolicy : Option RetryPolicy) :
    AgentInst I T × RetryTrace T :=
  let maxAttempts := jsOr (retryPolicy.map (fun p => p.maxAttempts)) 1
  let initialDelay := jsOr (retryPolicy.bind (fun p => p.initialDelay)) 1000
  let multiplier := jsOr (retryPolicy.bind (fun p => p.backoffMultiplier)) 2
  let maxDelay := jsOr (retryPolicy.bind (fun p => p.maxDelay)) 30000
  retryAgentLoop ctx input env multiplier maxDelay maxAttempts 0 initialDelay a none

/-! ### FallbackManager (`src/core/FallbackManager.ts`, lines 86–252) -/

/-- `FallbackManager` state: the two maps keyed by agent id. -/
structure FallbackManager (I T : Type) where
  circuitBreakers : List (String × CircuitBreaker) := []
  agents : List (String × AgentInst I T) := []

/-- `FallbackManager.registerAgent` (lines 93–96). -/
def FallbackManager.registerAgent {I T : Type} (fm : FallbackManager I T) (agent : AgentInst I T) :
    FallbackManager I T :=
  { fm with
    agents := mapSet fm.agents agent.config.id agent
    circuitBreakers := mapSet fm.circuitBreakers agent.config.id {} }

/-- `FallbackManager.getCircuitState` (lines 242–244). -/
def FallbackManager.getCircuitState {I T : Type} (fm : FallbackManager I T) (agentId : String) :
    Option CircuitState :=
  (mapLookup fm.circuitBreakers agentId).map (fun cb => cb.state)

/-- A JS string is truthy iff non-empty; an absent value is falsy
(`fallbackConfig.enabled && fallbackConfig.fallbackAgentId`, line 132). -/
def truthyStr (s : Option String) : Bool :=
  match s with
  | some str => decide (str ≠ "")
  | none => false

/-- The inner attempt loop of `executeFallback` (lines 222–228), threading
the fallback agent instance; returns the first successful Result, else the
`FALLBACK_FAILED` Result after `maxAttempts` attempts. -/
def fallbackLoop {I T : Type} (ctx : AgentContext) (input : I) (env : ExecEnv) :
    Nat → AgentInst I T → AgentInst I T × AgentResult T
  | 0, fa =>
    (fa, { success := false
           error := some { code := "FALLBACK_FAILED", message := "Fallback agent execution failed" } })
  | k + 1, fa =>
    let step := fa.execute ctx input env
    if step.result.success then (step.agent, step.result)
    else fallbackLoop ctx input env k step.agent

/-- `FallbackManager.executeFallback` (lines 204–237). -/
def FallbackManager.executeFallback {I T : Type} (fm : FallbackManager I T)
    (fallbackAgentId : String) (ctx : AgentContext) (input : I) (env : ExecEnv)
    (maxAttempts : Nat) : FallbackManager I T × AgentResult T :=
  match mapLookup fm.agents fallbackAgentId with
  | none =>
    (fm, { success := false
           error := some { code := "FALLBACK_AGENT_NOT_FOUND"
                           message := "Fallback agent " ++ fallbackAgentId ++ " not found" } })
  | some fa =>
    let r := fallbackLoop ctx input env maxAttempts fa
    ({ fm with agents := mapSet fm.agents fallbackAgentId r.1 }, r.2)

/-- The `catch` branch of `executeWithFallback` (lines 130–149): on a raised
failure with message `msg`, run the fallback agent when enabled and named,
else return the `EXECUTION_FAILED` Result. -/
def FallbackManager.handleExecError {I T : Type} (fm : FallbackManager I T)
    (fallbackConfig : FallbackConfig) (ctx : AgentContext) (input : I) (env : ExecEnv)
    (msg : String) : FallbackManager I T × AgentResult T :=
  if fallbackConfig.enabled ∧ truthyStr fallbackConfig.fallbackAgentId then
    fm.executeFallback (fallbackConfig.fallbackAgentId.getD "") ctx input env
      (jsOr fallbackConfig.maxFallbackAttempts 1)
  else
    (fm, { success := false
           error := some { code := "EXECUTION_FAILED", message := msg } })

/-- `FallbackManager.executeWithFallback` (lines 101–150): agent lookup,
circuit gate around the retry loop (`CircuitBreaker.admit` is the gate's
admission step; a refused gate raises `Circuit breaker is OPEN` without
invoking the retry loop), breaker bookkeeping, and the `catch` fallback. -/
def FallbackManager.executeWithFallback {I T : Type} (fm : FallbackManager I T)
    (agentId : String) (ctx : AgentContext) (input : I) (fallbackConfig : FallbackConfig)
    (now : Nat) (env : ExecEnv) : FallbackManager I T × AgentResult T :=
  match mapLookup fm.agents agentId with
  | none =>
    (fm, { success := false
           error := some { code := "AGENT_NOT_FOUND"
                           message := "Agent " ++ agentId ++ " not found" } })
  | some agent =>
    match mapLookup fm.circuitBreakers agentId with
    | some cb =>
      match cb.admit now with
      | none => fm.handleExecError fallbackConfig ctx input env "Circuit breaker is OPEN"
      | some cb1 =>
        let r := FallbackManager.executeWithRetry agent ctx input env agent.config.retryPolicy
        let fm1 := { fm with agents := mapSet fm.agents agentId r.1 }
        match r.2.outcome with
        | .ok res =>
          ({ fm1 with circuitBreakers := mapSet fm1.circuitBreakers agentId cb1.onSuccess }, res)
        | .error msg =>
          FallbackManager.handleExecError
            { fm1 with circuitBreakers := mapSet fm1.circuitBreakers agentId (cb1.onFailure now) }
            fallbackConfig ctx input env msg
    | none =>
      let r := FallbackManager.executeWithRetry agent ctx input env agent.config.retryPolicy
      let fm1 := { fm with agents := mapSet fm.agents agentId r.1 }
      match r.2.outcome with
      | .ok res => (fm1, res)
      | .error msg => fm1.handleExecError fallbackConfig ctx input env msg

/-! ### Orchestrator (`src/orchestration/AgentOrchestrator.ts`) -/

/-- `OrchestratorConfig` as supplied by the caller (all fields optional). -/
structure OrchestratorConfig where
  fallbackEnabled : Option Bool := none
  maxConcurrentAgents : Option Nat := none
  defaultTimeout : Option Nat := none
deriving DecidableEq

/-- The configuration stored after the constructor merge (lines 39–44):
`{fallbackEnabled: true, maxConcurrentAgents: 10, defaultTimeout: 30000, ...config}`. -/
structure MergedConfig where
  fallbackEnabled : Bool
  maxConcurrentAgents : Nat
  defaultTimeout : Nat
deriving DecidableEq

/-- `AgentOrchestrator` state.  `busSubscriptions` records the agent ids the
orchestrator has subscribed on the communication bus. -/
structure AgentOrchestrator (I T : Type) where
  agents : List (String × AgentInst I T) := []
  fallbackManager : FallbackManager I T := {}
  busSubscriptions : List String := []
  config : MergedConfig
  runningAgents : List String := []

/-- The orchestrator constructor (lines 33–45). -/
def mkOrchestrator {I T : Type} (config : OrchestratorConfig) : AgentOrchestrator I T :=
  { config := { fallbackEnabled := config.fallbackEnabled.getD true
                maxConcurrentAgents := config.maxConcurrentAgents.getD 10
                defaultTimeout := config.defaultTimeout.getD 30000 } }

/-- `registerAgent` (lines 50–64).  The second component is the raised /
returned channel: `Except.error msg` models the thrown
`Error('Agent <id> is already registered')`, in which case the orchestrator
state is unchanged. -/
def AgentOrchestrator.registerAgent {I T : Type} (o : AgentOrchestrator I T)
    (agent : AgentInst I T) : AgentOrchestrator I T × Except String Unit :=
  let agentId := agent.config.id
  if (mapLookup o.agents agentId).isSome then
    (o, .error ("Agent " ++ agentId ++ " is already registered"))
  else
    ({ o with
        agents := mapSet o.agents agentId agent
        fallbackManager := o.fallbackManager.registerAgent agent
        busSubscriptions := o.busSubscriptions ++ [agentId] },
     .ok ())

/-- `unregisterAgent` (lines 69–73). -/
def AgentOrchestrator.unregisterAgent {I T : Type} (o : AgentOrchestrator I T)
    (agentId : String) : AgentOrchestrator I T :=
  { o with
    agents := mapDelete o.agents agentId
    busSubscriptions := setRemove o.busSubscriptions agentId
    runningAgents := setRemove o.runningAgents agentId }

/-- The `agentContext` construction of `executeAgent` (lines 112–117):
`{ agentId, requestId: this.generateRequestId(), timestamp: Date.now(), ...context }` —
the caller-supplied spread comes last, so every property present on the
partial context overrides the generated one. -/
def buildAgentContext (agentId requestId : String) (now : Nat) (c : PartialAgentContext) :
    AgentContext :=
  { agentId := c.agentId.getD agentId
    requestId := c.requestId.getD requestId
    correlationId := c.correlationId
    timestamp := c.timestamp.getD now
    metadata := c.metadata }

/-- `executeAgent` (lines 78–135).  `requestId` stands for the value of
`this.generateRequestId()` and `now` for `Date.now()`.  The third component
of the return records the `AgentContext` handed to
`fallbackManager.executeWithFallback` (`none` when execution was refused
before that point), making the passed context observable. -/
def AgentOrchestrator.executeAgent {I T : Type} (o : AgentOrchestrator I T) (agentId : String)
    (input : I) (context : Option PartialAgentContext) (requestId : String) (now : Nat)
    (env : ExecEnv) : AgentOrchestrator I T × AgentResult T × Option AgentContext :=
  match mapLookup o.agents agentId with
  | none =>
    (o, { success := false
          error := some { code := "AGENT_NOT_FOUND"
                          message := "Agent " ++ agentId ++ " not found" } }, none)
  | some agent =>
    if o.config.maxConcurrentAgents ≠ 0 ∧ o.config.maxConcurrentAgents ≤ o.runningAgents.length then
      (o, { success := false
            error := some { code := "MAX_CONCURRENT_LIMIT"
                            message := "Maximum concurrent agents limit reached" } }, none)
    else
      let running1 := setAdd o.runningAgents agentId
      let agentContext := buildAgentContext agentId requestId now (context.getD {})
      let fallbackConfig : FallbackConfig :=
        { enabled := o.config.fallbackEnabled
          fallbackAgentId := agent.config.fallbackAgent
          maxFallbackAttempts := some 2
          fallbackStrategy := some "circuit-breaker" }
      let r := o.fallbackManager.executeWithFallback agentId agentContext input fallbackConfig now env
      ({ o with fallbackManager := r.1, runningAgents := setRemove running1 agentId },
       r.2, some agentContext)

/-! ### Communication bus (`src/communication/A2ACommunicationBus.ts`) -/

/-- `AgentMessage` (the `from`/`to` fields are spelled
`from_`/`to_`, both being Lean keywords). -/
structure AgentMessage (P : Type) where
  id : String
  from_ : String
  to_ : String
  type : String
  payload : P
  priority : MessagePriority
  timestamp : Nat
  correlationId : Option String := none
  replyTo : Option String := none
  metadata : Option MetadataRec := none
deriving DecidableEq

/-- The options bag of `sendMessage` / `broadcast`. -/
structure SendOptions where
  priority : Option MessagePriority := none
  correlationId : Option String := none
  replyTo : Option String := none
  metadata : Option MetadataRec := none
deriving DecidableEq

/-- `generateMessageId` (lines 132–134), driven by a fresh-id counter in
place of `Date.now()` + `Math.random()`. -/
def genMessageId (n : Nat) : String :=
  "msg-" ++ toString n

/-- Bus-plus-transport state: the fresh-id counter, the current clock, and
the messages the transport has accepted (in acceptance order). -/
structure BusState (P : Type) where
  nextId : Nat := 0
  now : Nat := 0
  sent : List (AgentMessage P) := []
deriving DecidableEq

/-- The `AgentMessage` object `sendMessage` builds (lines 45–56) for fresh
id `n`. -/
def busMessage {P : Type} (n : Nat) (now : Nat) (from_ to_ ty : String) (payload : P)
    (opts : SendOptions) : AgentMessage P :=
  { id := genMessageId n
    from_ := from_
    to_ := to_
    type := ty
    payload := payload
    priority := opts.priority.getD .NORMAL
    timestamp := now
    correlationId := opts.correlationId
    replyTo := opts.replyTo
    metadata := opts.metadata }

/-- `sendMessage` (lines 33–60).  `sendFails` models the pluggable
transport's `send`: `some e` means `transport.send(message)` rejects with
`e` (the exception propagates and no message is recorded), `none` means the
transport accepts the message. -/
def busSendMessage {P E : Type} (sendFails : AgentMessage P → Option E) (s : BusState P)
    (from_ to_ ty : String) (payload : P) (opts : SendOptions) :
    BusState P × Except E String :=
  let msg := busMessage s.nextId s.now from_ to_ ty payload opts
  match sendFails msg with
  | some e => ({ s with nextId := s.nextId + 1 }, .error e)
  | none => ({ s with nextId := s.nextId + 1, sent := s.sent ++ [msg] }, .ok msg.id)

/-- The `for (const recipient of recipients)` loop of `broadcast`
(lines 76–83), carrying the accumulated `messageIds`.  A rejected send
propagates immediately: the local `messageIds` array is discarded. -/
def broadcastGo {P E : Type} (sendFails : AgentMessage P → Option E)
    (from_ ty : String) (payload : P) (opts : SendOptions) :
    List String → BusState P → List String → BusState P × Except E (List String)
  | [], s, acc => (s, .ok acc)
  | r :: rs, s, acc =>
    match busSendMessage sendFails s from_ r ty payload opts with
    | (s1, .ok mid) => broadcastGo sendFails from_ ty payload opts rs s1 (acc ++ [mid])
    | (s1, .error e) => (s1, .error e)

/-- `broadcast` (lines 65–84). -/
def busBroadcast {P E : Type} (sendFails : AgentMessage P → Option E) (s : BusState P)
    (from_ : String) (recipients : List String) (ty : String) (payload : P)
    (opts : SendOptions) : BusState P × Except E (List String) :=
  broadcastGo sendFails from_ ty payload opts recipients s []

/-- The message list a fully successful broadcast hands to the transport:
one `busMessage` per recipient, ids counting up from `n`. -/
def expectedBroadcast {P : Type} (now : Nat) (from_ ty : String) (payload : P)
    (opts : SendOptions) : Nat → List String → List (AgentMessage P)
  | _, [] => []
  | n, r :: rs =>
    busMessage n now from_ r ty payload opts :: expectedBroadcast now from_ ty payload opts (n + 1) rs

/-! ### Concrete instances used by witnesses and counterexamples -/

/-- Default env: all clock/memory readings zero. -/
def envW : ExecEnv := {}

/-- A concrete context. -/
def ctxW : AgentContext := { agentId := "a", requestId := "r", timestamp := 0 }

/-- An agent whose body always returns `7`. -/
def agentOkW : AgentInst Nat Nat :=
  { config := { id := "a", name := "A", type := "worker" }, run := fun _ _ => Except.ok 7 }

/-- An agent whose body always throws a non-`Error` value `"x"`. -/
def agentFailW : AgentInst Nat Nat :=
  { config := { id := "a", name := "A", type := "worker" }
    run := fun _ _ => Except.error (JsValueErr.nonError "x") }

/-- An agent that throws on its first two invocations and then returns `37`
(the shape of scenario S3). -/
def agentMixW : AgentInst Nat Nat :=
  { config := { id := "a", name := "A", type := "worker" }
    run := fun k _ => if k < 2 then Except.error (JsValueErr.nonError "x") else Except.ok 37 }

/-- Retry policy `{maxAttempts: 3, backoffMultiplier: 2, initialDelay: 10, maxDelay: 15}`. -/
def policyW : RetryPolicy :=
  { maxAttempts := 3, backoffMultiplier := some 2, initialDelay := some 10, maxDelay := some 15 }

/-- Retry policy `{maxAttempts: 3, backoffMultiplier: 2, initialDelay: 0, maxDelay: 15}`:
a zero initial delay, which is falsy in JS. -/
def policyZeroW : RetryPolicy :=
  { maxAttempts := 3, backoffMultiplier := some 2, initialDelay := some 0, maxDelay := some 15 }

/-- A breaker sitting in HALF_OPEN with `failureCount` already reset by a
probe success (threshold still the default 5). -/
def cbHW : CircuitBreaker :=
  { state := .HALF_OPEN, failureCount := 0, successCount := 1, lastFailureTime := some 5 }

/-- The error code carried by a Result, if any. -/
def errCodeOf {T : Type} (r : AgentResult T) : Option String :=
  r.error.map (fun e => e.code)

/-- An agent registered under id `target`. -/
def agentTargetW : AgentInst Nat Nat :=
  { config := { id := "target", name := "T", type := "worker" }, run := fun _ _ => Except.ok 0 }

/-- A partial context that supplies its own `agentId`, `requestId` and
`timestamp`. -/
def partialCtxW : PartialAgentContext :=
  { agentId := some "other", requestId := some "caller-req", timestamp := some 999 }

/-- Orchestrator with default config and `agentTargetW` registered. -/
def oC3 : AgentOrchestrator Nat Nat :=
  ((mkOrchestrator {}).registerAgent agentTargetW).1

/-- Orchestrator with default config and `agentOkW` (id `a`) registered. -/
def oC6 : AgentOrchestrator Nat Nat :=
  ((mkOrchestrator {}).registerAgent agentOkW).1

/-- Orchestrator configured with `maxConcurrentAgents = 0`, `agentOkW`
registered, and three ids already in the running set. -/
def oC9 : AgentOrchestrator Nat Nat :=
  { ((mkOrchestrator { maxConcurrentAgents := some 0 }).registerAgent agentOkW).1 with
    runningAgents := ["b", "c", "d"] }

/-- A transport whose `send` rejects exactly the messages addressed to
`r2`. -/
def failsR2 : AgentMessage Nat → Option String :=
  fun msg => if msg.to_ = "r2" then some "send failed" else none

/-! ### Helper normal forms for one `execute` call -/

/-- Post-state of an `execute` call whose body threw. -/
def failedAgent {I T : Type} (a : AgentInst I T) (ctx : AgentContext) : AgentInst I T :=
  { a with context := some ctx, status := AgentStatus.FAILED, invocations := a.invocations + 1 }

/-- Post-state of an `execute` call whose body returned. -/
def completedAgent {I T : Type} (a : AgentInst I T) (ctx : AgentContext) : AgentInst I T :=
  { a with context := some ctx, status := AgentStatus.COMPLETED, invocations := a.invocations + 1 }

/-- The failure Result `execute` builds from a thrown value. -/
def failResult {T : Type} (e : JsValueErr) (env : ExecEnv) : AgentResult T :=
  { success := false, error := some (formatError e), metrics := some (collectMetrics env) }

/-- The success Result `execute` builds from a returned value. -/
def okResult {T : Type} (v : T) (env : ExecEnv) : AgentResult T :=
  { success := true, data := some v, metrics := some (collectMetrics env) }

/-! ### Claim C1 — HALF_OPEN failure transition -/

/-- C1 counterexample.  Run the default breaker through five gated failures
(times 1..5, opening it), a successful probe at time 60005 (HALF_OPEN, and
`onSuccess` resets `failureCount` to 0), then a failing gated call at time
60006.  The claim says this failure transitions the breaker to OPEN
regardless of `failureCount`; in fact the breaker stays HALF_OPEN because
the incremented `failureCount` (1) is below the threshold (5).  It does set
`lastFailureTime` to the current time. -/
theorem c1_halfOpen_failure_counterexample :
    cbHalfOpenAfterSuccess.state = CircuitState.HALF_OPEN ∧
    cbHalfOpenAfterSuccess.failureCount = 0 ∧
    (cbHalfOpenAfterSuccess.execute (T := Unit) 60006 (Except.error "boom")).1.state
      ≠ CircuitState.OPEN ∧
    (cbHalfOpenAfterSuccess.execute (T := Unit) 60006 (Except.error "boom")).1.state
      = CircuitState.HALF_OPEN ∧
    (cbHalfOpenAfterSuccess.execute (T := Unit) 60006 (Except.error "boom")).1.lastFailureTime
      = some 60006 := by
  decide

/-- C1 (amended): a failure of the gated call while the breaker is HALF_OPEN
always sets `lastFailureTime` to the current time and re-raises the failure,
but it transitions the breaker to OPEN if and only if the incremented
`failureCount` reaches the threshold; otherwise (in particular after a
HALF_OPEN success has reset `failureCount` below the threshold) the breaker
remains HALF_OPEN. -/
theorem c1_halfOpen_failure_amended {E T : Type} (cb : CircuitBreaker) (now : Nat) (e : E)
    (h : cb.state = CircuitState.HALF_OPEN) :
    (cb.execute (T := T) now (Except.error e)).1.lastFailureTime = some now ∧
    (cb.execute (T := T) now (Except.error e)).1.failureCount = cb.failureCount + 1 ∧
    (cb.execute (T := T) now (Except.error e)).1.state =
      (if cb.threshold ≤ cb.failureCount + 1 then CircuitState.OPEN else CircuitState.HALF_OPEN) ∧
    (cb.execute (T := T) now (Except.error e)).2 = Except.error (GateError.wrapped e) := by
  simp only [CircuitBreaker.execute, CircuitBreaker.admit, CircuitBreaker.onFailure, h]
  refine ⟨?_, ?_, ?_, ?_⟩ <;> simp <;> split <;> simp [h]

/-- C1 amended witness: the HALF_OPEN breaker `cbHW` with `failureCount = 0`
and threshold 5 records the failure time on a failing gated call. -/
theorem c1_halfOpen_failure_amended_witness :
    (cbHW.execute (T := Unit) 77 (Except.error "boom")).1.lastFailureTime = some 77 :=
  (c1_halfOpen_failure_amended (T := Unit) cbHW 77 "boom" rfl).1

/-! ### Claim C7 — Agent.execute lifecycle -/

/-- C7: every `execute` sets the status to `RUNNING` on entry, maps an `ok`
run to a success Result with status `COMPLETED`, maps a raised failure to a
failure Result (with `formatError`) and status `FAILED`, and runs
`cleanup()` on both exit paths. -/
theorem c7_execute_lifecycle {I T : Type} (a : AgentInst I T) (ctx : AgentContext) (input : I)
    (env : ExecEnv) :
    (a.executeEntry ctx).status = AgentStatus.RUNNING ∧
    (a.execute ctx input env).cleanupCalled = true ∧
    (∀ v, a.run a.invocations input = Except.ok v →
      (a.execute ctx input env).result =
        { success := true, data := some v, metrics := some (collectMetrics env) } ∧
      (a.execute ctx input env).agent.status = AgentStatus.COMPLETED) ∧
    (∀ e, a.run a.invocations input = Except.error e →
      (a.execute ctx input env).result =
        { success := false, error := some (formatError e), metrics := some (collectMetrics env) } ∧
      (a.execute ctx input env).agent.status = AgentStatus.FAILED) := by
  refine ⟨rfl, ?_, ?_, ?_⟩
  · unfold AgentInst.execute
    cases a.run a.invocations input <;> rfl
  · intro v hv
    unfold AgentInst.execute
    rw [hv]
    exact ⟨rfl, rfl⟩
  · intro e he
    unfold AgentInst.execute
    rw [he]
    exact ⟨rfl, rfl⟩

/-- C7 witness: the always-succeeding agent completes with data `7`, and the
always-throwing agent fails with the `UNKNOWN_ERROR` mapping; cleanup runs
on both. -/
theorem c7_execute_lifecycle_witness :
    ((agentOkW.execute ctxW 0 envW).result =
        { success := true, data := some 7, metrics := some (collectMetrics envW) } ∧
      (agentOkW.execute ctxW 0 envW).agent.status = AgentStatus.COMPLETED) ∧
    ((agentFailW.execute ctxW 0 envW).result =
        { success := false, error := some (formatError (JsValueErr.nonError "x"))
          metrics := some (collectMetrics envW) } ∧
      (agentFailW.execute ctxW 0 envW).agent.status = AgentStatus.FAILED) ∧
    (agentOkW.execute ctxW 0 envW).cleanupCalled = true ∧
    (agentOkW.executeEntry ctxW).status = AgentStatus.RUNNING :=
  ⟨(c7_execute_lifecycle agentOkW ctxW 0 envW).2.2.1 7 rfl,
   (c7_execute_lifecycle agentFailW ctxW 0 envW).2.2.2 (JsValueErr.nonError "x") rfl,
   (c7_execute_lifecycle agentOkW ctxW 0 envW).2.1,
   (c7_execute_lifecycle agentOkW ctxW 0 envW).1⟩

/-! ### Claim C8 — suspend / resume -/

/-- C8: `suspend()` forces status `SUSPENDED` from any state (changing
nothing else), and `resume()` sets the status to `IDLE` exactly when the
current status is `SUSPENDED`, leaving the agent unchanged otherwise. -/
theorem c8_suspend_resume {I T : Type} (a : AgentInst I T) :
    a.suspend.status = AgentStatus.SUSPENDED ∧
    a.suspend = { a with status := AgentStatus.SUSPENDED } ∧
    a.resume = (if a.status = AgentStatus.SUSPENDED
      then { a with status := AgentStatus.IDLE } else a) :=
  ⟨rfl, rfl, rfl⟩

/-! ### Claim C4 — OPEN breaker fails fast within the timeout window -/

/-- Splitting a failure streak. -/
theorem gateFailStreak_append {E : Type} (e : E) (cb : CircuitBreaker) (ts1 ts2 : List Nat) :
    gateFailStreak e cb (ts1 ++ ts2) = gateFailStreak e (gateFailStreak e cb ts1) ts2 := by
  induction ts1 generalizing cb with
  | nil => rfl
  | cons t ts ih => simp [gateFailStreak, ih]

/-- Invariant build-up: from a CLOSED breaker, a streak of exactly enough
gated failures to meet the threshold leaves the breaker OPEN, with a
positive recorded failure time and unchanged parameters. -/
theorem gateFailStreak_opens {E : Type} (e : E) :
    ∀ (ts : List Nat) (cb : CircuitBreaker),
      cb.state = CircuitState.CLOSED →
      cb.failureCount < cb.threshold →
      cb.failureCount + ts.length = cb.threshold →
      (∀ t ∈ ts, 0 < t) →
      (gateFailStreak e cb ts).state = CircuitState.OPEN ∧
      (gateFailStreak e cb ts).threshold ≤ (gateFailStreak e cb ts).failureCount ∧
      (∃ t, 0 < t ∧ (gateFailStreak e cb ts).lastFailureTime = some t) ∧
      (gateFailStreak e cb ts).threshold = cb.threshold ∧
      (gateFailStreak e cb ts).timeout = cb.timeout := by
  intro ts
  induction ts with
  | nil =>
    intro cb _ hlt hsum _
    simp at hsum
    omega
  | cons t ts ih =>
    intro cb hclosed hlt hsum hpos
    have hsum1 : cb.failureCount + (ts.length + 1) = cb.threshold := by
      simpa [List.length_cons] using hsum
    have hstep :
        (cb.execute (T := Unit) t (Except.error e)).1 = cb.onFailure t := by
      simp [CircuitBreaker.execute, CircuitBreaker.admit, hclosed]
    rw [gateFailStreak, hstep]
    by_cases hth : cb.threshold ≤ cb.failureCount + 1
    · have hts : ts = [] := by
        have : ts.length = 0 := by omega
        exact List.length_eq_zero.mp this
      subst hts
      have honf : cb.onFailure t =
          { cb with failureCount := cb.failureCount + 1, lastFailureTime := some t,
                    state := CircuitState.OPEN } := by
        rw [CircuitBreaker.onFailure]
        rw [if_pos (by simpa using hth)]
      rw [honf]
      exact ⟨rfl, by simpa using hth, ⟨t, hpos t (List.mem_cons_self t []), rfl⟩, rfl, rfl⟩
    · have honf : cb.onFailure t =
          { cb with failureCount := cb.failureCount + 1, lastFailureTime := some t } := by
        rw [CircuitBreaker.onFailure]
        rw [if_neg (by simpa using hth)]
      rw [honf]
      exact ih { cb with failureCount := cb.failureCount + 1, lastFailureTime := some t }
        hclosed (show cb.failureCount + 1 < cb.threshold by omega)
        (show cb.failureCount + 1 + ts.length = cb.threshold by omega)
        (fun u hu => hpos u (List.mem_cons_of_mem t hu))

/-- Invariant preservation: once OPEN with the threshold met and a positive
recorded failure time, any further streak of gated failures (at positive
times) keeps the breaker OPEN with those properties and parameters. -/
theorem gateFailStreak_stays_open {E : Type} (e : E) :
    ∀ (ts : List Nat) (cb : CircuitBreaker),
      cb.state = CircuitState.OPEN →
      cb.threshold ≤ cb.failureCount →
      (∃ t, 0 < t ∧ cb.lastFailureTime = some t) →
      (∀ t ∈ ts, 0 < t) →
      (gateFailStreak e cb ts).state = CircuitState.OPEN ∧
      (gateFailStreak e cb ts).threshold ≤ (gateFailStreak e cb ts).failureCount ∧
      (∃ t, 0 < t ∧ (gateFailStreak e cb ts).lastFailureTime = some t) ∧
      (gateFailStreak e cb ts).threshold = cb.threshold ∧
      (gateFailStreak e cb ts).timeout = cb.timeout := by
  intro ts
  induction ts with
  | nil =>
    intro cb hopen hth hlf _
    exact ⟨hopen, hth, hlf, rfl, rfl⟩
  | cons t ts ih =>
    intro cb hopen hth hlf hpos
    rw [gateFailStreak]
    by_cases hres : cb.shouldAttemptReset t
    · have hstep : (cb.execute (T := Unit) t (Except.error e)).1 =
          ({ cb with state := CircuitState.HALF_OPEN, successCount := 0 } :
            CircuitBreaker).onFailure t := by
        simp [CircuitBreaker.execute, CircuitBreaker.admit, hopen, hres]
      have honf :
          ({ cb with state := CircuitState.HALF_OPEN, successCount := 0 } :
            CircuitBreaker).onFailure t =
          { cb with state := CircuitState.OPEN, successCount := 0,
                    failureCount := cb.failureCount + 1, lastFailureTime := some t } := by
        rw [CircuitBreaker.onFailure]
        rw [if_pos (show cb.threshold ≤ cb.failureCount + 1 by omega)]
      rw [hstep, honf]
      exact ih { cb with state := CircuitState.OPEN, successCount := 0, failureCount := cb.failureCount + 1, lastFailureTime := some t }
        rfl (show cb.threshold ≤ cb.failureCount + 1 by omega)
        ⟨t, hpos t (List.mem_cons_self t ts), rfl⟩
        (fun u hu => hpos u (List.mem_cons_of_mem t hu))
    · have hstep : (cb.execute (T := Unit) t (Except.error e)).1 = cb := by
        simp [CircuitBreaker.execute, CircuitBreaker.admit, hopen, hres]
      rw [hstep]
      exact ih cb hopen hth hlf (fun u hu => hpos u (List.mem_cons_of_mem t hu))

/-- C4: after a fresh (CLOSED, zero-failure) breaker has observed at least
`threshold` consecutive gated failures (at positive clock times), it is
OPEN, and every subsequent gated call made while `now - lastFailureTime`
is still below the timeout returns the `CIRCUIT_OPEN` error with the
breaker unchanged — for every body outcome `fn`, i.e. without the wrapped
function influencing the call at all. -/
theorem c4_open_fails_fast {E F T : Type} (e : E) (cb0 : CircuitBreaker) (ts : List Nat)
    (now : Nat) (fn : Except F T)
    (hstate : cb0.state = CircuitState.CLOSED)
    (hfc : cb0.failureCount = 0)
    (hth : 1 ≤ cb0.threshold)
    (hlen : cb0.threshold ≤ ts.length)
    (hpos : ∀ t ∈ ts, 0 < t)
    (htime : (now : Int) - ((gateFailStreak e cb0 ts).lastFailureTime.getD 0 : Nat) <
      ((gateFailStreak e cb0 ts).timeout : Int)) :
    (gateFailStreak e cb0 ts).state = CircuitState.OPEN ∧
    (gateFailStreak e cb0 ts).execute now fn =
      ((gateFailStreak e cb0 ts), Except.error GateError.circuitOpen) := by
  have hsplit : gateFailStreak e cb0 ts =
      gateFailStreak e (gateFailStreak e cb0 (ts.take cb0.threshold)) (ts.drop cb0.threshold) := by
    rw [← gateFailStreak_append, List.take_append_drop]
  have htake : (ts.take cb0.threshold).length = cb0.threshold := by
    simp [List.length_take]
    omega
  have h1 := gateFailStreak_opens e (ts.take cb0.threshold) cb0 hstate
    (by omega) (by rw [htake]; omega)
    (fun t htm => hpos t (List.mem_of_mem_take htm))
  have h2 := gateFailStreak_stays_open e (ts.drop cb0.threshold)
    (gateFailStreak e cb0 (ts.take cb0.threshold))
    h1.1 h1.2.1 h1.2.2.1
    (fun t htm => hpos t (List.mem_of_mem_drop htm))
  rw [hsplit]
  rw [hsplit] at htime
  obtain ⟨topen, htpos, htlf⟩ := h2.2.2.1
  refine ⟨h2.1, ?_⟩
  have hreset : (gateFailStreak e (gateFailStreak e cb0 (ts.take cb0.threshold))
      (ts.drop cb0.threshold)).shouldAttemptReset now = false := by
    rw [CircuitBreaker.shouldAttemptReset, htlf]
    rw [htlf] at htime
    simp at htime ⊢
    intro _
    omega
  rw [CircuitBreaker.execute, CircuitBreaker.admit, if_pos h2.1, hreset]
  rfl

/-- C4 witness: the default breaker (threshold 5) after five gated failures
at times 1..5 is OPEN, and a call at time 100 (well inside the 60000 ms
window) fails fast with `CIRCUIT_OPEN` leaving the breaker unchanged, even
though the offered body would have succeeded. -/
theorem c4_open_fails_fast_witness :
    (gateFailStreak (E := String) "boom" {} [1, 2, 3, 4, 5]).state = CircuitState.OPEN ∧
    (gateFailStreak (E := String) "boom" {} [1, 2, 3, 4, 5]).execute 100
        (Except.ok (0 : Nat) (ε := String)) =
      ((gateFailStreak (E := String) "boom" {} [1, 2, 3, 4, 5]),
        Except.error GateError.circuitOpen) :=
  c4_open_fails_fast "boom" {} [1, 2, 3, 4, 5] 100 (Except.ok 0)
    rfl rfl (by decide) (by decide) (by decide) (by decide)

/-! ### Claim C2 — retry count, delays, and final raise -/

/-- Evaluation of `execute` when the body throws. -/
theorem execute_run_error {I T : Type} (a : AgentInst I T) (ctx : AgentContext) (input : I)
    (env : ExecEnv) (e : JsValueErr) (h : a.run a.invocations input = Except.error e) :
    a.execute ctx input env =
      { agent := failedAgent a ctx, result := failResult e env, cleanupCalled := true } := by
  unfold AgentInst.execute
  rw [h]
  rfl

/-- Evaluation of `execute` when the body returns. -/
theorem execute_run_ok {I T : Type} (a : AgentInst I T) (ctx : AgentContext) (input : I)
    (env : ExecEnv) (v : T) (h : a.run a.invocations input = Except.ok v) :
    a.execute ctx input env =
      { agent := completedAgent a ctx, result := okResult v env, cleanupCalled := true } := by
  unfold AgentInst.execute
  rw [h]
  rfl

/-- The failed agent keeps the same body and advances its invocation count. -/
theorem failedAgent_run {I T : Type} (a : AgentInst I T) (ctx : AgentContext) :
    (failedAgent a ctx).run = a.run ∧ (failedAgent a ctx).invocations = a.invocations + 1 :=
  ⟨rfl, rfl⟩

/-- The retry loop's remembered error message for a failed attempt is the
`runFailMsg` of the body outcome. -/
theorem resultErrMsg_formatError {T : Type} (e : JsValueErr) (env : ExecEnv) :
    resultErrMsg (failResult e env : AgentResult T) =
      runFailMsg (Except.error e : Except JsValueErr T) := by
  cases e <;> simp [resultErrMsg, runFailMsg, formatError, failResult]

/-- Retry loop on a streak of failing attempts: the body is invoked once per
unit of fuel, the waits are `min(delay·m^i, cap)` for `i = 0 … fuel−2`, and
the loop ends by raising the message of the last failure. -/
theorem retryLoop_allFail {I T : Type} (ctx : AgentContext) (input : I) (env : ExecEnv)
    (m cap : Nat) :
    ∀ (fuel attempt delay : Nat) (a : AgentInst I T) (le : Option String),
      0 < fuel →
      (∀ i, i < fuel → ∃ e, a.run (a.invocations + i) input = Except.error e) →
      (retryAgentLoop ctx input env m cap fuel attempt delay a le).2 =
        ⟨fuel, (List.range (fuel - 1)).map (fun i => min (delay * m ^ i) cap),
         Except.error (runFailMsg (a.run (a.invocations + (fuel - 1)) input))⟩ := by
  intro fuel
  induction fuel with
  | zero =>
    intro _ _ _ _ h
    exact absurd h (Nat.lt_irrefl 0)
  | succ f ih =>
    intro attempt delay a le hpos hfail
    obtain ⟨e0, he0⟩ := hfail 0 (Nat.succ_pos f)
    rw [Nat.add_zero] at he0
    have hexec := execute_run_error a ctx input env e0 he0
    rw [retryAgentLoop, hexec]
    have hsucc : (failResult e0 env : AgentResult T).success = false := rfl
    by_cases hf : f = 0
    · subst hf
      simp [retryAgentLoop, hsucc, resultErrMsg_formatError, he0]
    · have hfpos : 0 < f := Nat.pos_of_ne_zero hf
      have hfail2 : ∀ i, i < f →
          ∃ e, (failedAgent a ctx).run ((failedAgent a ctx).invocations + i) input
            = Except.error e := by
        intro i hi
        have := hfail (i + 1) (by omega)
        have harith : a.invocations + (i + 1) = a.invocations + 1 + i := by omega
        rw [harith] at this
        exact this
      have hrec := ih (attempt + 1) (delay * m) (failedAgent a ctx)
        (some (resultErrMsg (failResult e0 env : AgentResult T))) hfpos hfail2
      have hwaits : (List.range (f + 1 - 1)).map (fun i => min (delay * m ^ i) cap) =
          min delay cap :: (List.range (f - 1)).map
            (fun i => min (delay * m * m ^ i) cap) := by
        have hrange : List.range f = 0 :: (List.range (f - 1)).map Nat.succ := by
          conv_lhs => rw [show f = (f - 1) + 1 by omega]
          rw [List.range_succ_eq_map]
        rw [show f + 1 - 1 = f from rfl, hrange]
        simp only [List.map_cons, List.map_map, pow_zero, mul_one]
        congr 1
        apply List.map_congr_left
        intro i _
        have hm : delay * m ^ (Nat.succ i) = delay * m * m ^ i := by
          rw [pow_succ]
          ring
        simp [Function.comp, hm]
      have houtcome : (failedAgent a ctx).run ((failedAgent a ctx).invocations + (f - 1)) input
          = a.run (a.invocations + (f + 1 - 1)) input := by
        have harith : a.invocations + 1 + (f - 1) = a.invocations + (f + 1 - 1) := by omega
        show a.run (a.invocations + 1 + (f - 1)) input = _
        rw [harith]
      rw [houtcome] at hrec
      simp only [hsucc, Bool.false_eq_true, if_false, if_neg hf, hrec, hwaits]

/-- Retry loop when the first success comes at attempt index `i` (all
earlier attempts fail): the body is invoked `i + 1` times and the Result of
the successful attempt is returned with `retryCount = attempt + i`. -/
theorem retryLoop_firstSuccess {I T : Type} (ctx : AgentContext) (input : I) (env : ExecEnv)
    (m cap : Nat) :
    ∀ (i fuel attempt delay : Nat) (a : AgentInst I T) (le : Option String) (v : T),
      i < fuel →
      (∀ j, j < i → ∃ e, a.run (a.invocations + j) input = Except.error e) →
      a.run (a.invocations + i) input = Except.ok v →
      (retryAgentLoop ctx input env m cap fuel attempt delay a le).2.calls = i + 1 ∧
      (retryAgentLoop ctx input env m cap fuel attempt delay a le).2.outcome =
        Except.ok (withRetryCount (okResult v env) (attempt + i)) := by
  intro i
  induction i with
  | zero =>
    intro fuel attempt delay a le v hlt _ hok
    obtain ⟨f, rfl⟩ : ∃ f, fuel = f + 1 := ⟨fuel - 1, by omega⟩
    rw [Nat.add_zero] at hok
    have hexec := execute_run_ok a ctx input env v hok
    rw [retryAgentLoop, hexec]
    have hsucc : (okResult v env : AgentResult T).success = true := rfl
    rw [Nat.add_zero]
    simp [hsucc]
  | succ i ih =>
    intro fuel attempt delay a le v hlt hfail hok
    obtain ⟨f, rfl⟩ : ∃ f, fuel = f + 1 := ⟨fuel - 1, by omega⟩
    obtain ⟨e0, he0⟩ := hfail 0 (Nat.succ_pos i)
    rw [Nat.add_zero] at he0
    have hexec := execute_run_error a ctx input env e0 he0
    rw [retryAgentLoop, hexec]
    have hsucc : (failResult e0 env : AgentResult T).success = false := rfl
    have hf : f ≠ 0 := by omega
    have hfail2 : ∀ j, j < i →
        ∃ e, (failedAgent a ctx).run ((failedAgent a ctx).invocations + j) input
          = Except.error e := by
      intro j hj
      have := hfail (j + 1) (by omega)
      have harith : a.invocations + (j + 1) = a.invocations + 1 + j := by omega
      rw [harith] at this
      exact this
    have hok2 : (failedAgent a ctx).run ((failedAgent a ctx).invocations + i) input
        = Except.ok v := by
      have harith : a.invocations + (i + 1) = a.invocations + 1 + i := by omega
      rw [harith] at hok
      exact hok
    have hrec := ih f (attempt + 1) (delay * m) (failedAgent a ctx)
      (some (resultErrMsg (failResult e0 env : AgentResult T))) v
      (by omega) hfail2 hok2
    have harg : attempt + 1 + i = attempt + (i + 1) := by omega
    rw [harg] at hrec
    simp only [hsucc, Bool.false_eq_true, if_false, if_neg hf]
    exact ⟨by simp only [hrec.1], by simp only [hrec.2]⟩

/-- C2 counterexample.  The claimed wait formula `min(d·m^i, cap)` fails
for the policy `{maxAttempts: 3, initialDelay: 0, backoffMultiplier: 2,
maxDelay: 15}` (the spec's data model allows `initialDelay ≥ 0`): the
code's falsy default `retryPolicy?.initialDelay || 1000` replaces the
explicit 0 with 1000, so the observed waits on unbroken failure are
`[15, 15]` (1000 then 2000, both capped at 15), while the claim predicts
`[min(0·2^0, 15), min(0·2^1, 15)] = [0, 0]`. -/
theorem c2_zero_delay_counterexample :
    (FallbackManager.executeWithRetry agentFailW ctxW 0 envW (some policyZeroW)).2.calls = 3 ∧
    (FallbackManager.executeWithRetry agentFailW ctxW 0 envW (some policyZeroW)).2.waits
      = [15, 15] ∧
    (List.range (3 - 1)).map (fun i => min (0 * 2 ^ i) 15) = [0, 0] ∧
    (FallbackManager.executeWithRetry agentFailW ctxW 0 envW (some policyZeroW)).2.waits
      ≠ [0, 0] := by
  refine ⟨rfl, rfl, rfl, by decide⟩

/-- `jsOr` of a positive default is positive. -/
theorem jsOr_pos (v : Option Nat) (d : Nat) (hd : 0 < d) : 0 < jsOr v d := by
  cases v with
  | none => exact hd
  | some n =>
    by_cases hn : n = 0
    · simpa [jsOr, hn] using hd
    · simpa [jsOr, hn] using Nat.pos_of_ne_zero hn

/-- C2 (amended): the retry loop runs on the *effective* parameters after
the code's falsy defaults `maxAttempts || 1`, `initialDelay || 1000`,
`backoffMultiplier || 2`, `maxDelay || 30000` (an explicit 0 falls back to
the default, exactly like an absent field).  With effective values `n`,
`d`, `m`, `cap`: (a) if the agent body fails on every one of the `n`
attempts, `executeWithRetry` invokes `agent.execute` exactly `n` times,
sleeps `min(d·m^i, cap)` between attempts `i` and `i+1` for
`i = 0 … n−2`, and finally raises the last failure; (b) if the body first
succeeds on attempt `i < n`, the successful Result is returned with
`metrics.retryCount = i` after exactly `i + 1` invocations. -/
theorem c2_retry_schedule_amended {I T : Type} (p : RetryPolicy) (n d m cap : Nat)
    (a : AgentInst I T) (ctx : AgentContext) (input : I) (env : ExecEnv)
    (hn : jsOr (some p.maxAttempts) 1 = n)
    (hd : jsOr p.initialDelay 1000 = d)
    (hm : jsOr p.backoffMultiplier 2 = m)
    (hcap : jsOr p.maxDelay 30000 = cap) :
    ((∀ i, i < n → ∃ e, a.run (a.invocations + i) input = Except.error e) →
      (FallbackManager.executeWithRetry a ctx input env (some p)).2 =
        ⟨n, (List.range (n - 1)).map (fun i => min (d * m ^ i) cap),
         Except.error (runFailMsg (a.run (a.invocations + (n - 1)) input))⟩) ∧
    (∀ i v, i < n →
      (∀ j, j < i → ∃ e, a.run (a.invocations + j) input = Except.error e) →
      a.run (a.invocations + i) input = Except.ok v →
      (FallbackManager.executeWithRetry a ctx input env (some p)).2.calls = i + 1 ∧
      (FallbackManager.executeWithRetry a ctx input env (some p)).2.outcome =
        Except.ok (withRetryCount (okResult v env) i)) := by
  subst hn hd hm hcap
  have hn0 : 0 < jsOr (some p.maxAttempts) 1 := jsOr_pos _ 1 (by decide)
  have hunfold : FallbackManager.executeWithRetry a ctx input env (some p) =
      retryAgentLoop ctx input env (jsOr p.backoffMultiplier 2) (jsOr p.maxDelay 30000)
        (jsOr (some p.maxAttempts) 1) 0 (jsOr p.initialDelay 1000) a none := rfl
  rw [hunfold]
  constructor
  · intro hfail
    exact retryLoop_allFail ctx input env _ _ _ 0 _ a none hn0 hfail
  · intro i v hlt hfail hok
    have h := retryLoop_firstSuccess ctx input env (jsOr p.backoffMultiplier 2)
      (jsOr p.maxDelay 30000) i (jsOr (some p.maxAttempts) 1) 0
      (jsOr p.initialDelay 1000) a none v hlt hfail hok
    rw [Nat.zero_add] at h
    exact h

/-- C2 amended witness: the zero-initial-delay policy runs on the 1000 ms
effective delay, giving 3 invocations and waits `[15, 15]`; the
`{initialDelay: 10}` policy gives waits `[10, 15]`; an agent succeeding on
its third invocation returns its Result with `retryCount = 2` after 3
invocations. -/
theorem c2_retry_schedule_amended_witness :
    ((FallbackManager.executeWithRetry agentFailW ctxW 0 envW (some policyZeroW)).2 =
      ⟨3, [15, 15], Except.error "x"⟩) ∧
    ((FallbackManager.executeWithRetry agentFailW ctxW 0 envW (some policyW)).2 =
      ⟨3, [10, 15], Except.error "x"⟩) ∧
    ((FallbackManager.executeWithRetry agentMixW ctxW 0 envW (some policyW)).2.calls = 3 ∧
      (FallbackManager.executeWithRetry agentMixW ctxW 0 envW (some policyW)).2.outcome =
        Except.ok (withRetryCount (okResult 37 envW) 2)) := by
  refine ⟨?_, ?_, ?_⟩
  · have h := (c2_retry_schedule_amended policyZeroW 3 1000 2 15 agentFailW ctxW 0 envW
      rfl rfl rfl rfl).1 (fun i _ => ⟨JsValueErr.nonError "x", rfl⟩)
    rw [h]
    rfl
  · have h := (c2_retry_schedule_amended policyW 3 10 2 15 agentFailW ctxW 0 envW
      rfl rfl rfl rfl).1 (fun i _ => ⟨JsValueErr.nonError "x", rfl⟩)
    rw [h]
    rfl
  · exact (c2_retry_schedule_amended policyW 3 10 2 15 agentMixW ctxW 0 envW
      rfl rfl rfl rfl).2 2 37 (by decide)
      (fun j hj => ⟨JsValueErr.nonError "x", by interval_cases j <;> rfl⟩)
      rfl

/-! ### Claim C3 — caller context vs generated context -/

/-- C3 counterexample.  The claim says `agentId` and `requestId` in the
execution Context are authoritative (caller-supplied values cannot override
them).  But the spread `...context` comes last in `executeAgent`, so a
caller-supplied partial context replaces all three generated fields: here
the Context handed to execution carries the caller's `agentId = "other"`
(not the target id `"target"`), the caller's `requestId = "caller-req"`
(not the fresh id `"req-fresh"`), and the caller's timestamp. -/
theorem c3_context_override_counterexample :
    (oC3.executeAgent "target" 0 (some partialCtxW) "req-fresh" 5 envW).2.2 =
      some { agentId := "other", requestId := "caller-req", correlationId := none,
             timestamp := 999, metadata := none } ∧
    "other" ≠ "target" ∧ "caller-req" ≠ "req-fresh" := by
  refine ⟨rfl, by decide, by decide⟩

/-- C3 (amended): the Context passed to execution is the generated
`{agentId, requestId, timestamp}` record overridden by every field present
on the caller-supplied partial context — so `agentId` and `requestId` equal
the target agent id and the fresh request id only when the caller does not
supply their own; `correlationId` and `metadata` always come from the
caller. -/
theorem c3_context_spread_amended {I T : Type} (o : AgentOrchestrator I T) (agentId : String)
    (input : I) (c : PartialAgentContext) (requestId : String) (now : Nat) (env : ExecEnv)
    (ag : AgentInst I T)
    (hfound : mapLookup o.agents agentId = some ag)
    (hfree : ¬(o.config.maxConcurrentAgents ≠ 0 ∧
      o.config.maxConcurrentAgents ≤ o.runningAgents.length)) :
    (o.executeAgent agentId input (some c) requestId now env).2.2 =
      some { agentId := c.agentId.getD agentId, requestId := c.requestId.getD requestId,
             correlationId := c.correlationId, timestamp := c.timestamp.getD now,
             metadata := c.metadata } := by
  rw [AgentOrchestrator.executeAgent, hfound]
  dsimp only
  rw [if_neg hfree]
  rfl

/-- C3 amended witness: a caller context supplying only `correlationId`
leaves the generated `agentId`, `requestId` and `timestamp` in place. -/
theorem c3_context_spread_amended_witness :
    (oC3.executeAgent "target" 0
        (some { correlationId := some "corr" }) "req-1" 5 envW).2.2 =
      some { agentId := "target", requestId := "req-1", correlationId := some "corr",
             timestamp := 5, metadata := none } :=
  c3_context_spread_amended oC3 "target" 0 { correlationId := some "corr" } "req-1" 5 envW
    agentTargetW rfl (by decide)

/-! ### Claim C6 — duplicate registration -/

/-- C6 counterexample.  The claim says a duplicate registration fails with a
returned failure Result carrying code `ALREADY_REGISTERED` and that the
orchestrator never raises out of a public call.  In fact `registerAgent`
throws `Error('Agent a is already registered')` (the `Except.error` channel
models the raise), with no structured error code. -/
theorem c6_duplicate_register_counterexample :
    (oC6.registerAgent agentOkW).2 = Except.error "Agent a is already registered" := by
  rfl

/-- C6 (amended): registering an agent whose id is already registered
raises `Error('Agent <id> is already registered')` (rather than returning a
failure Result with code `ALREADY_REGISTERED`), and leaves the orchestrator
state — in particular the originally registered agent — unchanged, so the
original agent remains registered and executable. -/
theorem c6_duplicate_register_amended {I T : Type} (o : AgentOrchestrator I T)
    (agent a0 : AgentInst I T) (h : mapLookup o.agents agent.config.id = some a0) :
    o.registerAgent agent =
      (o, Except.error ("Agent " ++ agent.config.id ++ " is already registered")) ∧
    mapLookup (o.registerAgent agent).1.agents agent.config.id = some a0 := by
  have hsome : (mapLookup o.agents agent.config.id).isSome = true := by
    rw [h]
    rfl
  have hcall : o.registerAgent agent =
      (o, Except.error ("Agent " ++ agent.config.id ++ " is already registered")) := by
    rw [AgentOrchestrator.registerAgent]
    rw [if_pos hsome]
  refine ⟨hcall, ?_⟩
  rw [hcall]
  exact h

/-- C6 amended witness: the duplicate registration on the concrete
orchestrator raises and leaves the original agent registered. -/
theorem c6_duplicate_register_amended_witness :
    oC6.registerAgent agentOkW =
      (oC6, Except.error ("Agent " ++ agentOkW.config.id ++ " is already registered")) ∧
    mapLookup (oC6.registerAgent agentOkW).1.agents agentOkW.config.id = some agentOkW :=
  c6_duplicate_register_amended oC6 agentOkW agentOkW rfl

/-! ### Claim C9 — maxConcurrentAgents = 0 disables the admission check -/

/-- A success Result built by `execute` carries no error. -/
theorem execute_success_no_error {I T : Type} (a : AgentInst I T) (ctx : AgentContext)
    (input : I) (env : ExecEnv) :
    (a.execute ctx input env).result.success = true →
    (a.execute ctx input env).result.error = none := by
  unfold AgentInst.execute
  cases a.run a.invocations input <;> simp

/-- An `ok` outcome of the retry loop carries no error. -/
theorem retryLoop_ok_no_error {I T : Type} (ctx : AgentContext) (input : I) (env : ExecEnv)
    (m cap : Nat) :
    ∀ (fuel attempt delay : Nat) (a : AgentInst I T) (le : Option String) (r : AgentResult T),
      (retryAgentLoop ctx input env m cap fuel attempt delay a le).2.outcome = Except.ok r →
      r.error = none := by
  intro fuel
  induction fuel with
  | zero =>
    intro attempt delay a le r h
    rw [retryAgentLoop] at h
    exact absurd h (by simp)
  | succ f ih =>
    intro attempt delay a le r h
    rw [retryAgentLoop] at h
    cases hrun : a.run a.invocations input with
    | ok v =>
      rw [execute_run_ok a ctx input env v hrun] at h
      have hsucc : (okResult v env : AgentResult T).success = true := rfl
      rw [if_pos hsucc] at h
      simp at h
      rw [← h]
      rfl
    | error e =>
      rw [execute_run_error a ctx input env e hrun] at h
      have hsucc : (failResult e env : AgentResult T).success = false := rfl
      rw [hsucc] at h
      simp only [Bool.false_eq_true, if_false] at h
      by_cases hf : f = 0
      · rw [if_pos hf] at h
        exact ih _ _ _ _ r h
      · rw [if_neg hf] at h
        exact ih _ _ _ _ r h

/-- The error codes a `fallbackLoop` Result can carry. -/
theorem fallbackLoop_codes {I T : Type} (ctx : AgentContext) (input : I) (env : ExecEnv) :
    ∀ (k : Nat) (fa : AgentInst I T),
      errCodeOf (fallbackLoop ctx input env k fa).2 = none ∨
      errCodeOf (fallbackLoop ctx input env k fa).2 = some "FALLBACK_FAILED" := by
  intro k
  induction k with
  | zero =>
    intro fa
    right
    rfl
  | succ j ih =>
    intro fa
    rw [fallbackLoop]
    by_cases hs : (fa.execute ctx input env).result.success = true
    · rw [if_pos hs]
      left
      have := execute_success_no_error fa ctx input env hs
      simp [errCodeOf, this]
    · rw [if_neg hs]
      exact ih _

/-- The error codes an `executeFallback` Result can carry. -/
theorem executeFallback_codes {I T : Type} (fm : FallbackManager I T) (fb : String)
    (ctx : AgentContext) (input : I) (env : ExecEnv) (k : Nat) :
    errCodeOf (fm.executeFallback fb ctx input env k).2 = none ∨
    errCodeOf (fm.executeFallback fb ctx input env k).2 = some "FALLBACK_AGENT_NOT_FOUND" ∨
    errCodeOf (fm.executeFallback fb ctx input env k).2 = some "FALLBACK_FAILED" := by
  rw [FallbackManager.executeFallback]
  cases hlook : mapLookup fm.agents fb with
  | none =>
    right
    left
    rfl
  | some fa =>
    rcases fallbackLoop_codes ctx input env k fa with h | h
    · left
      exact h
    · right
      right
      exact h

/-- The error codes a `handleExecError` Result can carry. -/
theorem handleExecError_codes {I T : Type} (fm : FallbackManager I T) (fc : FallbackConfig)
    (ctx : AgentContext) (input : I) (env : ExecEnv) (msg : String) :
    errCodeOf (fm.handleExecError fc ctx input env msg).2 = none ∨
    errCodeOf (fm.handleExecError fc ctx input env msg).2 = some "EXECUTION_FAILED" ∨
    errCodeOf (fm.handleExecError fc ctx input env msg).2 = some "FALLBACK_AGENT_NOT_FOUND" ∨
    errCodeOf (fm.handleExecError fc ctx input env msg).2 = some "FALLBACK_FAILED" := by
  rw [FallbackManager.handleExecError]
  by_cases hen : fc.enabled = true ∧ truthyStr fc.fallbackAgentId = true
  · rw [if_pos hen]
    rcases executeFallback_codes fm (fc.fallbackAgentId.getD "") ctx input env
      (jsOr fc.maxFallbackAttempts 1) with h | h | h
    · left
      exact h
    · right
      right
      left
      exact h
    · right
      right
      right
      exact h
  · rw [if_neg hen]
    right
    left
    rfl

/-- The error codes an `executeWithFallback` Result can carry: the fixed
FallbackManager taxonomy, never an orchestrator admission code. -/
theorem executeWithFallback_codes {I T : Type} (fm : FallbackManager I T) (agentId : String)
    (ctx : AgentContext) (input : I) (fc : FallbackConfig) (now : Nat) (env : ExecEnv) :
    errCodeOf (fm.executeWithFallback agentId ctx input fc now env).2 = none ∨
    errCodeOf (fm.executeWithFallback agentId ctx input fc now env).2 = some "AGENT_NOT_FOUND" ∨
    errCodeOf (fm.executeWithFallback agentId ctx input fc now env).2 = some "EXECUTION_FAILED" ∨
    errCodeOf (fm.executeWithFallback agentId ctx input fc now env).2
      = some "FALLBACK_AGENT_NOT_FOUND" ∨
    errCodeOf (fm.executeWithFallback agentId ctx input fc now env).2
      = some "FALLBACK_FAILED" := by
  rw [FallbackManager.executeWithFallback]
  cases hlook : mapLookup fm.agents agentId with
  | none =>
    right
    left
    rfl
  | some agent =>
    dsimp only
    have hretry := retryLoop_ok_no_error (T := T) ctx input env
    cases hcb : mapLookup fm.circuitBreakers agentId with
    | some cb =>
      dsimp only
      cases hadm : cb.admit now with
      | none =>
        dsimp only
        rcases handleExecError_codes fm fc ctx input env "Circuit breaker is OPEN"
          with h | h | h | h
        · left; exact h
        · right; right; left; exact h
        · right; right; right; left; exact h
        · right; right; right; right; exact h
      | some cb1 =>
        dsimp only
        cases hout : (FallbackManager.executeWithRetry agent ctx input env
            agent.config.retryPolicy).2.outcome with
        | ok res =>
          left
          have hres : res.error = none := by
            rw [FallbackManager.executeWithRetry] at hout
            exact hretry _ _ _ _ _ _ _ _ hout
          simp [errCodeOf, hres]
        | error msg =>
          rcases handleExecError_codes
            { fm with
              agents := mapSet fm.agents agentId
                (FallbackManager.executeWithRetry agent ctx input env
                  agent.config.retryPolicy).1
              circuitBreakers := mapSet
                ({ fm with
                  agents := mapSet fm.agents agentId
                    (FallbackManager.executeWithRetry agent ctx input env
                      agent.config.retryPolicy).1 } : FallbackManager I T).circuitBreakers
                agentId (cb1.onFailure now) }
            fc ctx input env msg with h | h | h | h
          · left; exact h
          · right; right; left; exact h
          · right; right; right; left; exact h
          · right; right; right; right; exact h
    | none =>
      dsimp only
      cases hout : (FallbackManager.executeWithRetry agent ctx input env
          agent.config.retryPolicy).2.outcome with
      | ok res =>
        left
        have hres : res.error = none := by
          rw [FallbackManager.executeWithRetry] at hout
          exact hretry _ _ _ _ _ _ _ _ hout
        simp [errCodeOf, hres]
      | error msg =>
        rcases handleExecError_codes
          { fm with
            agents := mapSet fm.agents agentId
              (FallbackManager.executeWithRetry agent ctx input env
                agent.config.retryPolicy).1 }
          fc ctx input env msg with h | h | h | h
        · left; exact h
        · right; right; left; exact h
        · right; right; right; left; exact h
        · right; right; right; right; exact h

/-- C9: when the orchestrator is configured with `maxConcurrentAgents = 0`,
the admission check is skipped (0 is falsy in
`this.config.maxConcurrentAgents && …`), so `executeAgent` never produces a
`MAX_CONCURRENT_LIMIT` failure — for any state of the running set, however
large. -/
theorem c9_zero_cap_never_limits {I T : Type} (o : AgentOrchestrator I T) (agentId : String)
    (input : I) (c : Option PartialAgentContext) (requestId : String) (now : Nat)
    (env : ExecEnv) (h : o.config.maxConcurrentAgents = 0) :
    errCodeOf (o.executeAgent agentId input c requestId now env).2.1
      ≠ some "MAX_CONCURRENT_LIMIT" := by
  rw [AgentOrchestrator.executeAgent]
  cases hlook : mapLookup o.agents agentId with
  | none =>
    intro hcon
    simp [errCodeOf] at hcon
  | some agent =>
    have hcond : ¬(o.config.maxConcurrentAgents ≠ 0 ∧
        o.config.maxConcurrentAgents ≤ o.runningAgents.length) := by
      rw [h]
      simp
    dsimp only
    rw [if_neg hcond]
    rcases executeWithFallback_codes o.fallbackManager agentId
      (buildAgentContext agentId requestId now (c.getD {})) input
      { enabled := o.config.fallbackEnabled, fallbackAgentId := agent.config.fallbackAgent,
        maxFallbackAttempts := some 2, fallbackStrategy := some "circuit-breaker" }
      now env with hc | hc | hc | hc | hc <;>
    · intro hcon
      rw [hc] at hcon
      simp at hcon

/-- C9 witness: with `maxConcurrentAgents = 0` and three running agents,
executing the registered agent does not produce `MAX_CONCURRENT_LIMIT`. -/
theorem c9_zero_cap_never_limits_witness :
    errCodeOf (oC9.executeAgent "a" 0 none "r" 5 envW).2.1 ≠ some "MAX_CONCURRENT_LIMIT" :=
  c9_zero_cap_never_limits oC9 "a" 0 none "r" 5 envW rfl

/-! ### Claim C10 — unregisterAgent leaves the FallbackManager untouched -/

/-- Deleting a key from an association-list map makes lookups of it fail. -/
theorem mapLookup_mapDelete {β : Type} (l : List (String × β)) (k : String) :
    mapLookup (mapDelete l k) k = none := by
  induction l with
  | nil => rfl
  | cons p rest ih =>
    by_cases hp : p.1 = k
    · simpa [mapDelete, List.filter_cons, hp] using ih
    · simpa [mapDelete, mapLookup, List.filter_cons, hp] using ih

/-- An element is gone from the set after `setRemove`. -/
theorem setRemove_not_mem (l : List String) (k : String) : k ∉ setRemove l k := by
  simp [setRemove, List.mem_filter]

/-- C10: `unregisterAgent` removes the agent from the orchestrator's own
map, bus subscription, and running set only; the FallbackManager — its
agent map and the agent's circuit breaker — is left untouched, so
`getCircuitState` still answers for the id and the FallbackManager can
still execute the (now unregistered) agent exactly as before, e.g. as a
fallback target. -/
theorem c10_unregister_frame {I T : Type} (o : AgentOrchestrator I T) (agentId : String) :
    (o.unregisterAgent agentId).fallbackManager = o.fallbackManager ∧
    (o.unregisterAgent agentId).fallbackManager.getCircuitState agentId =
      o.fallbackManager.getCircuitState agentId ∧
    (∀ (ctx : AgentContext) (input : I) (fc : FallbackConfig) (now : Nat) (env : ExecEnv),
      (o.unregisterAgent agentId).fallbackManager.executeWithFallback
          agentId ctx input fc now env =
        o.fallbackManager.executeWithFallback agentId ctx input fc now env) ∧
    mapLookup (o.unregisterAgent agentId).agents agentId = none ∧
    agentId ∉ (o.unregisterAgent agentId).busSubscriptions ∧
    agentId ∉ (o.unregisterAgent agentId).runningAgents :=
  ⟨rfl, rfl, fun _ _ _ _ _ => rfl, mapLookup_mapDelete o.agents agentId,
   setRemove_not_mem o.busSubscriptions agentId, setRemove_not_mem o.runningAgents agentId⟩

/-! ### Claim C5 — broadcast: ids in order, partial-failure behaviour -/

/-- The k-th message of a fully successful broadcast is addressed to the
k-th recipient. -/
theorem expectedBroadcast_to {P : Type} (now : Nat) (from_ ty : String) (payload : P)
    (opts : SendOptions) :
    ∀ (n : Nat) (rs : List String),
      (expectedBroadcast now from_ ty payload opts n rs).map (fun msg => msg.to_) = rs := by
  intro n rs
  induction rs generalizing n with
  | nil => rfl
  | cons r rs ih => simp [expectedBroadcast, busMessage, ih]

/-- The ids of a fully successful broadcast are the generated ids, counting
up in recipient order. -/
theorem expectedBroadcast_ids {P : Type} (now : Nat) (from_ ty : String) (payload : P)
    (opts : SendOptions) :
    ∀ (n : Nat) (rs : List String),
      (expectedBroadcast now from_ ty payload opts n rs).map (fun msg => msg.id) =
        (List.range rs.length).map (fun k => genMessageId (n + k)) := by
  intro n rs
  induction rs generalizing n with
  | nil => rfl
  | cons r rs ih =>
    rw [expectedBroadcast, List.length_cons, List.range_succ_eq_map]
    simp only [List.map_cons, List.map_map, busMessage]
    congr 1
    rw [ih (n + 1)]
    apply List.map_congr_left
    intro k _
    have h1 : n + 1 + k = n + Nat.succ k := by omega
    simp [Function.comp, h1]

/-- Evaluation of one successful `sendMessage`. -/
theorem busSendMessage_ok {P E : Type} (sendFails : AgentMessage P → Option E) (s : BusState P)
    (from_ r ty : String) (payload : P) (opts : SendOptions)
    (h : sendFails (busMessage s.nextId s.now from_ r ty payload opts) = none) :
    busSendMessage sendFails s from_ r ty payload opts =
      ({ s with
          nextId := s.nextId + 1,
          sent := s.sent ++ [busMessage s.nextId s.now from_ r ty payload opts] },
       Except.ok (busMessage s.nextId s.now from_ r ty payload opts).id) := by
  rw [busSendMessage]
  rw [h]

/-- Evaluation of one rejected `sendMessage`. -/
theorem busSendMessage_fail {P E : Type} (sendFails : AgentMessage P → Option E) (s : BusState P)
    (from_ r ty : String) (payload : P) (opts : SendOptions) (e : E)
    (h : sendFails (busMessage s.nextId s.now from_ r ty payload opts) = some e) :
    busSendMessage sendFails s from_ r ty payload opts =
      ({ s with nextId := s.nextId + 1 }, Except.error e) := by
  rw [busSendMessage]
  rw [h]

/-- Broadcast loop when the transport accepts everything. -/
theorem broadcastGo_allOk {P E : Type} (sendFails : AgentMessage P → Option E)
    (from_ ty : String) (payload : P) (opts : SendOptions)
    (h : ∀ msg, sendFails msg = none) :
    ∀ (rs : List String) (s : BusState P) (acc : List String),
      broadcastGo sendFails from_ ty payload opts rs s acc =
        ({ s with
            nextId := s.nextId + rs.length,
            sent := s.sent ++ expectedBroadcast s.now from_ ty payload opts s.nextId rs },
         Except.ok (acc ++
           (expectedBroadcast s.now from_ ty payload opts s.nextId rs).map (fun m => m.id))) := by
  intro rs
  induction rs with
  | nil =>
    intro s acc
    simp [broadcastGo, expectedBroadcast]
  | cons r rs ih =>
    intro s acc
    rw [broadcastGo, busSendMessage_ok sendFails s from_ r ty payload opts (h _)]
    dsimp only
    rw [ih]
    dsimp only
    refine Prod.ext ?_ ?_
    · show BusState.mk _ _ _ = BusState.mk _ _ _
      congr 1
      · rw [List.length_cons]
        omega
      · rw [expectedBroadcast]
        simp [List.append_assoc]
    · show Except.ok _ = Except.ok _
      rw [expectedBroadcast]
      simp [List.append_assoc]

/-- Broadcast loop when the transport rejects the message to `r` after
accepting the messages to `pre`: the loop stops there, the local
`messageIds` accumulator is discarded, and the bus/transport state keeps
exactly the `pre` deliveries. -/
theorem broadcastGo_failAt {P E : Type} (sendFails : AgentMessage P → Option E)
    (from_ ty : String) (payload : P) (opts : SendOptions) :
    ∀ (pre : List String) (r : String) (post : List String) (s : BusState P)
      (acc : List String) (e : E),
      (∀ msg ∈ expectedBroadcast s.now from_ ty payload opts s.nextId pre,
        sendFails msg = none) →
      sendFails (busMessage (s.nextId + pre.length) s.now from_ r ty payload opts) = some e →
      broadcastGo sendFails from_ ty payload opts (pre ++ r :: post) s acc =
        ({ s with
            nextId := s.nextId + pre.length + 1,
            sent := s.sent ++ expectedBroadcast s.now from_ ty payload opts s.nextId pre },
         Except.error e) := by
  intro pre
  induction pre with
  | nil =>
    intro r post s acc e _ hfail
    simp only [List.length_nil, Nat.add_zero] at hfail
    rw [List.nil_append, broadcastGo, busSendMessage_fail sendFails s from_ r ty payload opts e hfail]
    refine Prod.ext ?_ rfl
    show BusState.mk _ _ _ = BusState.mk _ _ _
    congr 1
    simp [expectedBroadcast]
  | cons p pre ih =>
    intro r post s acc e hpre hfail
    have hhead : sendFails (busMessage s.nextId s.now from_ p ty payload opts) = none := by
      apply hpre
      rw [expectedBroadcast]
      exact List.mem_cons_self _ _
    rw [List.cons_append, broadcastGo,
      busSendMessage_ok sendFails s from_ p ty payload opts hhead]
    dsimp only
    have harith : s.nextId + 1 + pre.length = s.nextId + (pre.length + 1) := by omega
    have hfail1 : sendFails (busMessage (s.nextId + 1 + pre.length) s.now from_ r ty
        payload opts) = some e := by
      rw [harith]
      simpa [List.length_cons] using hfail
    have hpre1 : ∀ msg ∈ expectedBroadcast s.now from_ ty payload opts (s.nextId + 1) pre,
        sendFails msg = none := by
      intro msg hm
      apply hpre
      rw [expectedBroadcast]
      exact List.mem_cons_of_mem _ hm
    rw [ih r post _ (acc ++ [(busMessage s.nextId s.now from_ p ty payload opts).id]) e
      hpre1 hfail1]
    refine Prod.ext ?_ rfl
    show BusState.mk _ _ _ = BusState.mk _ _ _
    congr 1
    · show s.nextId + 1 + pre.length + 1 = s.nextId + (pre.length + 1) + 1
      omega
    · show (s.sent ++ [busMessage s.nextId s.now from_ p ty payload opts]) ++
          expectedBroadcast s.now from_ ty payload opts (s.nextId + 1) pre =
        s.sent ++ expectedBroadcast s.now from_ ty payload opts s.nextId (p :: pre)
      rw [expectedBroadcast]
      simp [List.append_assoc]

/-- C5 counterexample.  Broadcasting to `[r1, r2, r3]` over a transport
that rejects the send to `r2`: the send to `r1` went through (one message
delivered, id `msg-0`), `r3` was never attempted, and the call propagates
the raw send error — the already-sent id `msg-0` is *not* returned
alongside the error, contradicting the claim. -/
theorem c5_broadcast_partial_failure_counterexample :
    busBroadcast failsR2 {} "s" ["r1", "r2", "r3"] "t" 0 {} =
      ({ nextId := 2, now := 0,
         sent := [{ id := "msg-0", from_ := "s", to_ := "r1", type := "t", payload := 0,
                    priority := MessagePriority.NORMAL, timestamp := 0 }] },
       Except.error "send failed") := by
  rfl

/-- C5 (amended): if every send is accepted, `broadcast` returns exactly
one id per recipient, in recipient order (the k-th returned id belongs to
the message delivered to the k-th recipient); if the send to some
recipient is rejected, no further recipients are attempted and the error
propagates, but the ids of the already-sent messages are **discarded**, not
returned — only the transport state still shows what was delivered. -/
theorem c5_broadcast_amended {P E : Type} (sendFails : AgentMessage P → Option E)
    (s : BusState P) (from_ : String) (recipients : List String) (ty : String) (payload : P)
    (opts : SendOptions) :
    ((∀ msg, sendFails msg = none) →
      busBroadcast sendFails s from_ recipients ty payload opts =
        ({ s with
            nextId := s.nextId + recipients.length,
            sent := s.sent ++ expectedBroadcast s.now from_ ty payload opts s.nextId recipients },
         Except.ok ((expectedBroadcast s.now from_ ty payload opts s.nextId recipients).map
           (fun m => m.id)))) ∧
    ((expectedBroadcast s.now from_ ty payload opts s.nextId recipients).map
        (fun msg => msg.to_) = recipients) ∧
    ((expectedBroadcast s.now from_ ty payload opts s.nextId recipients).map
        (fun msg => msg.id) =
      (List.range recipients.length).map (fun k => genMessageId (s.nextId + k))) ∧
    (∀ (pre : List String) (r : String) (post : List String) (e : E),
      recipients = pre ++ r :: post →
      (∀ msg ∈ expectedBroadcast s.now from_ ty payload opts s.nextId pre,
        sendFails msg = none) →
      sendFails (busMessage (s.nextId + pre.length) s.now from_ r ty payload opts) = some e →
      busBroadcast sendFails s from_ recipients ty payload opts =
        ({ s with
            nextId := s.nextId + pre.length + 1,
            sent := s.sent ++ expectedBroadcast s.now from_ ty payload opts s.nextId pre },
         Except.error e)) := by
  refine ⟨?_, expectedBroadcast_to s.now from_ ty payload opts s.nextId recipients,
    expectedBroadcast_ids s.now from_ ty payload opts s.nextId recipients, ?_⟩
  · intro h
    rw [busBroadcast, broadcastGo_allOk sendFails from_ ty payload opts h recipients s []]
    rw [List.nil_append]
  · intro pre r post e hsplit hpre hfail
    rw [busBroadcast, hsplit,
      broadcastGo_failAt sendFails from_ ty payload opts pre r post s [] e hpre hfail]

/-- C5 amended witness: an all-accepting transport broadcast to two
recipients returns `[msg-0, msg-1]`; the rejecting transport over
`[r1, r2, r3]` fails after delivering only `r1`'s message. -/
theorem c5_broadcast_amended_witness :
    busBroadcast (fun _ => (none : Option String)) ({} : BusState Nat) "s" ["a", "b"] "t" 0 {} =
      ({ nextId := 2, now := 0,
         sent := expectedBroadcast 0 "s" "t" 0 {} 0 ["a", "b"] },
       Except.ok ((expectedBroadcast 0 "s" "t" (0 : Nat) {} 0 ["a", "b"]).map
         (fun m => m.id))) ∧
    busBroadcast failsR2 {} "s" ["r1", "r2", "r3"] "t" 0 {} =
      ({ nextId := 2, now := 0,
         sent := expectedBroadcast 0 "s" "t" 0 {} 0 ["r1"] },
       Except.error "send failed") :=
  ⟨(c5_broadcast_amended (fun _ => none) {} "s" ["a", "b"] "t" 0 {}).1 (fun _ => rfl),
   (c5_broadcast_amended failsR2 {} "s" ["r1", "r2", "r3"] "t" 0 {}).2.2.2
     ["r1"] "r2" ["r3"] "send failed" rfl (by decide) rfl⟩

end HappyOS
